import Mathlib

/-!
Shallow embedding of the remotion-othman-backend orchestration service.

The embedding follows the TypeScript source:
  - `src/index.ts` (Express route handlers: POST /generate-video, POST /webhook),
  - `utils.ts` (generateAudio, uploadToS3, uploadVideoToS3, transcribeAudio,
    trimSilence, getLanguageValue and the langMap table),
  - `types.ts` (Clip, PostRequestBody, CaptionType).

External collaborators (ElevenLabs, OpenAI TTS, AssemblyAI, S3, the Remotion
render backend, ffmpeg, axios) are modelled as oracle parameters returning
`Except String` results: `.error` stands for a thrown exception, `.ok` for a
resolved promise.  JavaScript numbers are modelled as rationals, JavaScript
truthiness of optional strings and booleans is made explicit, and a JSON
field that can be absent, null, or a value is a three-state `JsField`.
Concurrency (`Promise.all`) is modelled as a left-to-right fold: the frozen
claims only concern call multiplicities and the merged data, not
interleavings.
-/

namespace RemotionBackend

/-- Raw audio/video bytes; the byte values are opaque to the orchestrator. -/
abbrev Buffer := List Nat

/-- JavaScript truthiness of an optional string: `undefined` and the empty
string are falsy, every other string is truthy. -/
def jsTruthyStr : Option String → Bool
  | some s => s ≠ ""
  | none => false

/-- JavaScript `a || b` for an optional string `a` with default `b`
(`undefined` and `""` fall through to the default). -/
def jsOrStr (o : Option String) (d : String) : String :=
  match o with
  | some s => if s = "" then d else s
  | none => d

/-- JavaScript `a || b` for an optional boolean `a` with default `b`
(`undefined` and `false` fall through to the default). -/
def jsOrBool (o : Option Bool) (d : Bool) : Bool :=
  match o with
  | some b => if b then b else d
  | none => d

/-- One word-level caption entry (`CaptionType` in types.ts). -/
structure CaptionType where
  text : String
  start : ℚ
  «end» : ℚ
deriving DecidableEq

/-- One inbound scene (`Clip` in types.ts). -/
structure Clip where
  media_url : String := ""
  media_type : Option String := none
  duration : Option ℚ := none
  video_volume : Option ℚ := none
  sound_effect_url : Option String := none
  sound_effect_volume : Option ℚ := none
  tts_enabled : Option Bool := none
  random_sequence : Option Bool := none
  subtitle_style : Option ℚ := none
  title : Option String := none
  emoji : Option String := none
  audio_text : Option String := none
  seconds : Option ℚ := none
  zoom : Option ℚ := none
deriving DecidableEq

/-- The inbound request body (`PostRequestBody` in types.ts); every field may
be absent at runtime, hence `Option`. -/
structure PostRequestBody where
  lang_code : Option String := none
  id : Option String := none
  elevenlabs_voice_id : Option String := none
  elevenlabs_stability : Option ℚ := none
  elevenlabs_similarity : Option ℚ := none
  elevenlabs_speed : Option ℚ := none
  elevenlabs_style : Option ℚ := none
  elevenlabs_use_speaker_boost : Option Bool := none
  elevenlabs_model_id : Option String := none
  audio_volume : Option ℚ := none
  music_url : Option String := none
  music_volume : Option ℚ := none
  title_style : Option ℚ := none
  subtitle_style : Option ℚ := none
  subtitlesonoff : Option Bool := none
  title_y_position : Option ℚ := none
  subtitle_y_position : Option ℚ := none
  title_x_position : Option ℚ := none
  subtitle_x_position : Option ℚ := none
  title_size : Option ℚ := none
  subtitle_size : Option ℚ := none
  subtitle_text_color : Option String := none
  subtitle_background_color : Option String := none
  title_text_color : Option String := none
  title_background_color : Option String := none
  secondary_color : Option String := none
  audio_text : Option String := none
  audio_url : Option String := none
  captions : Option (List CaptionType) := none
  clips : Option (List Clip) := none
  scale : Option ℚ := none
  fps : Option ℚ := none
  crf : Option ℚ := none
  image_format : Option String := none
  codec : Option String := none
deriving DecidableEq

/-- Argument record of `generateAudio` (`AudioParams` in types.ts); the
handler passes the raw optional request fields through. -/
structure AudioParams where
  elevenlabs_voice_id : Option String
  elevenlabs_stability : Option ℚ
  elevenlabs_similarity : Option ℚ
  audio_text : String
  lang_code : Option String
  elevenlabs_speed : Option ℚ
  elevenlabs_style : Option ℚ
  elevenlabs_use_speaker_boost : Option Bool
deriving DecidableEq

/-- A JSON field of the dispatched payload that can be absent, explicitly
null, or carry a value. -/
inductive JsField (α : Type) where
  | absent
  | null
  | val (a : α)
deriving DecidableEq

/-- A scene as it appears in the payload handed to the render dispatcher:
the spread of the inbound `Clip` plus the fields the handler adds or
overrides. -/
structure OutScene where
  media_url : String
  media_type : Option String
  duration : Option ℚ
  video_volume : Option ℚ
  sound_effect_url : Option String
  sound_effect_volume : Option ℚ
  tts_enabled : Option Bool
  random_sequence : Option Bool
  subtitle_style : Option ℚ
  title : Option String
  emoji : Option String
  audio_text : Option String
  seconds : Option ℚ
  zoom : Option ℚ
  audio_url : JsField String
  captions : JsField (List CaptionType)
deriving DecidableEq

/-- The payload handed to `generateVideo`: the spread of the (possibly
mutated) request body plus the resolved `scenes`. -/
structure GenerateVideoArgs where
  body : PostRequestBody
  scenes : List OutScene
deriving DecidableEq

/-- One call against an external collaborator, recorded in order. -/
inductive CallEv where
  | synth (text : String)
  | upl (id : String)
  | trans (url : String)
  | disp
deriving DecidableEq

/-- Oracles for the external collaborators used by the /generate-video
handler; `generateVideo` resolves to `true` on acceptance and to a falsy
value otherwise (it catches its own exceptions). -/
structure Collab where
  genAudio : AudioParams → Except String Buffer
  uploadToS3 : Buffer → String → Except String String
  transcribeAudio : String → Option String → Except String (Option (List CaptionType))
  generateVideo : GenerateVideoArgs → PostRequestBody → Bool

/-- Outcome of one /generate-video request: HTTP status, response message,
the ordered log of collaborator calls, and the dispatched payload when the
handler reached `generateVideo`. -/
structure HandlerResult where
  status : ℕ
  message : String
  calls : List CallEv
  dispatched : Option GenerateVideoArgs
deriving DecidableEq

/-- The validation test of the handler:
`!requestBody.id || !requestBody.clips || !requestBody.elevenlabs_voice_id`
(an array is always truthy in JavaScript, so only an absent `clips` fails). -/
def missingRequired (body : PostRequestBody) : Bool :=
  !jsTruthyStr body.id || body.clips.isNone || !jsTruthyStr body.elevenlabs_voice_id

/-- The `AudioParams` object literal the handler builds for `generateAudio`. -/
def mkAudioParams (body : PostRequestBody) (text : String) : AudioParams :=
  { elevenlabs_voice_id := body.elevenlabs_voice_id
    elevenlabs_stability := body.elevenlabs_stability
    elevenlabs_similarity := body.elevenlabs_similarity
    audio_text := text
    lang_code := body.lang_code
    elevenlabs_speed := body.elevenlabs_speed
    elevenlabs_style := body.elevenlabs_style
    elevenlabs_use_speaker_boost := body.elevenlabs_use_speaker_boost }

/-- A scene without narration text is returned unchanged by the per-scene
branch (`if (!scene.audio_text) return scene`). -/
def passthroughScene (c : Clip) : OutScene :=
  { media_url := c.media_url
    media_type := c.media_type
    duration := c.duration
    video_volume := c.video_volume
    sound_effect_url := c.sound_effect_url
    sound_effect_volume := c.sound_effect_volume
    tts_enabled := c.tts_enabled
    random_sequence := c.random_sequence
    subtitle_style := c.subtitle_style
    title := c.title
    emoji := c.emoji
    audio_text := c.audio_text
    seconds := c.seconds
    zoom := c.zoom
    audio_url := JsField.absent
    captions := JsField.absent }

/-- The per-scene merge object literal of the handler:
`mediaType: scene.media_type || "video"`, `audio_url: audioUrl`,
`tts_enabled: scene.tts_enabled || true`,
`random_sequence: scene.random_sequence || true`,
`captions: captions || []`, spread over the inbound scene. -/
def mergeScene (c : Clip) (audioUrl : String) (caps : Option (List CaptionType)) : OutScene :=
  { passthroughScene c with
    media_type := some (jsOrStr c.media_type "video")
    audio_url := JsField.val audioUrl
    tts_enabled := some (jsOrBool c.tts_enabled true)
    random_sequence := some (jsOrBool c.random_sequence true)
    captions := JsField.val (caps.getD []) }

/-- The whole-video-mode scene annotation of the handler: `audio_url: null`,
`captions: null`, same defaulting of `media_type` and the two flags. -/
def wholeVideoScene (c : Clip) : OutScene :=
  { passthroughScene c with
    media_type := some (jsOrStr c.media_type "video")
    audio_url := JsField.null
    tts_enabled := some (jsOrBool c.tts_enabled true)
    random_sequence := some (jsOrBool c.random_sequence true)
    captions := JsField.null }

/-- The per-scene pipeline for one clip: synthesize, upload, transcribe,
merge.  Returns the outcome plus the collaborator calls made (a failing call
is still a call). -/
def processClip (collab : Collab) (body : PostRequestBody) (c : Clip) :
    Except String OutScene × List CallEv :=
  if jsTruthyStr c.audio_text then
    let text := c.audio_text.getD ""
    let sceneId := body.id.getD ""
    match collab.genAudio (mkAudioParams body text) with
    | .error e => (.error e, [.synth text])
    | .ok buf =>
      match collab.uploadToS3 buf sceneId with
      | .error e => (.error e, [.synth text, .upl sceneId])
      | .ok url =>
        match collab.transcribeAudio url body.lang_code with
        | .error e => (.error e, [.synth text, .upl sceneId, .trans url])
        | .ok caps => (.ok (mergeScene c url caps), [.synth text, .upl sceneId, .trans url])
  else
    (.ok (passthroughScene c), [])

/-- The per-scene fan-out over all clips (`Promise.all` modelled as a
sequential fold; the claims settled here depend only on which calls are made
and on the merged scenes). -/
def processClips (collab : Collab) (body : PostRequestBody) :
    List Clip → Except String (List OutScene) × List CallEv
  | [] => (.ok [], [])
  | c :: cs =>
    match processClip collab body c with
    | (.error e, log) => (.error e, log)
    | (.ok s, log) =>
      match processClips collab body cs with
      | (.error e, log2) => (.error e, log ++ log2)
      | (.ok ss, log2) => (.ok (s :: ss), log ++ log2)

/-- The tail of the handler: call `generateVideo` and answer 200 with one of
the two outcome messages (both are HTTP 200). -/
def finishDispatch (collab : Collab) (args : GenerateVideoArgs) (body : PostRequestBody)
    (log : List CallEv) : HandlerResult :=
  if collab.generateVideo args body then
    { status := 200, message := "Video Triggered Successfully"
      calls := log ++ [.disp], dispatched := some args }
  else
    { status := 200, message := "There is some error generation video, try again later..."
      calls := log ++ [.disp], dispatched := some args }

/-- The POST /generate-video handler of index.ts: validation, the
whole-video branch (`requestBody.audio_text` truthy), the per-scene branch,
dispatch, and the top-level catch answering 500. -/
def handleGenerateVideo (collab : Collab) (body : PostRequestBody) : HandlerResult :=
  if missingRequired body then
    { status := 400, message := "Missing required fields in request body."
      calls := [], dispatched := none }
  else
    let clips := body.clips.getD []
    let reqId := body.id.getD ""
    if jsTruthyStr body.audio_text then
      let text := body.audio_text.getD ""
      match collab.genAudio (mkAudioParams body text) with
      | .error _ =>
        { status := 500, message := "Internal Server Error"
          calls := [.synth text], dispatched := none }
      | .ok buf =>
        match collab.uploadToS3 buf reqId with
        | .error _ =>
          { status := 500, message := "Internal Server Error"
            calls := [.synth text, .upl reqId], dispatched := none }
        | .ok url =>
          match collab.transcribeAudio url body.lang_code with
          | .error _ =>
            { status := 500, message := "Internal Server Error"
              calls := [.synth text, .upl reqId, .trans url], dispatched := none }
          | .ok caps =>
            let body2 := { body with audio_url := some url, captions := some (caps.getD []) }
            let args : GenerateVideoArgs := ⟨body2, clips.map wholeVideoScene⟩
            finishDispatch collab args body2 [.synth text, .upl reqId, .trans url]
    else
      match processClips collab body clips with
      | (.error _, log) =>
        { status := 500, message := "Internal Server Error"
          calls := log, dispatched := none }
      | (.ok scenes, log) =>
        finishDispatch collab ⟨body, scenes⟩ body log

/-- One silent interval reported by `getSilentParts`. -/
structure SilentPart where
  startInSeconds : ℚ
  endInSeconds : ℚ
deriving DecidableEq

/-- `trimStart` after the leading-silence check of `trimSilence`:
starts at 0 and becomes the end of the first interval when
`Math.floor(first.startInSeconds) === 0`. -/
def trimStartOf (first : SilentPart) : ℚ :=
  if ⌊first.startInSeconds⌋ = 0 then first.endInSeconds else 0

/-- `trimEnd` after the trailing-silence check of `trimSilence`:
starts at the total duration and becomes the start of the last interval when
`last.endInSeconds >= durationInSeconds - 0.1`. -/
def trimEndOf (lastPart : SilentPart) (durationInSeconds : ℚ) : ℚ :=
  if lastPart.endInSeconds ≥ durationInSeconds - 1/10 then lastPart.startInSeconds
  else durationInSeconds

/-- `trimSilence` of utils.ts.  `detect` is the `getSilentParts` oracle
(silent intervals plus total duration), `encode` the ffmpeg re-encode oracle
taking the computed start time and duration.  The catch block rethrows
`"Failed to trim silence."`; the no-silence and degenerate-range cases return
the original buffer. -/
def trimSilence (audioBuffer : Buffer)
    (detect : Except String (List SilentPart × ℚ))
    (encode : ℚ → ℚ → Except String Buffer) : Except String Buffer :=
  match detect with
  | .error _ => .error "Failed to trim silence."
  | .ok (silentParts, durationInSeconds) =>
    match silentParts with
    | [] => .ok audioBuffer
    | first :: rest =>
      let trimStart := trimStartOf first
      let trimEnd := trimEndOf (rest.getLastD first) durationInSeconds
      if trimStart ≥ trimEnd then .ok audioBuffer
      else
        match encode trimStart (trimEnd - trimStart) with
        | .error _ => .error "Failed to trim silence."
        | .ok trimmedBuffer => .ok trimmedBuffer

/-- `generateAudio` of utils.ts.  The backend is OpenAI TTS when
`lang_code === "he"` and ElevenLabs otherwise; the result is passed through
the trimmer inside a local try/catch whose catch returns the untrimmed
buffer; the outer catch rethrows `"Failed to generate audio."`. -/
def generateAudio (params : AudioParams)
    (openaiSpeech : Except String Buffer)
    (elevenConvert : Except String Buffer)
    (trim : Buffer → Except String Buffer) : Except String Buffer :=
  match (if params.lang_code = some "he" then openaiSpeech else elevenConvert) with
  | .error _ => .error "Failed to generate audio."
  | .ok audioBuffer =>
    match trim audioBuffer with
    | .ok trimmedBuffer => .ok trimmedBuffer
    | .error _ => .ok audioBuffer

/-- The audio object key of `uploadToS3`: the template literal
`id ++ "_" ++ Date.now() ++ ".mp3"`. -/
def audioFileName (id : String) (nowMs : ℕ) : String :=
  id ++ "_" ++ Nat.repr nowMs ++ ".mp3"

/-- The video object key of `uploadVideoToS3`: the template literal
`id ++ "_" ++ Date.now() ++ ".mp4"`. -/
def videoFileName (id : String) (nowMs : ℕ) : String :=
  id ++ "_" ++ Nat.repr nowMs ++ ".mp4"

/-- The public URL both uploaders return for a key. -/
def s3Url (bucketName fileName : String) : String :=
  "https://" ++ bucketName ++ ".s3.amazonaws.com/" ++ fileName

/-- `uploadToS3` of utils.ts: fail when the bucket is not configured, send
the PutObject command, return the public URL; the catch rethrows
`"Failed to upload audio to S3."`. -/
def uploadToS3Run (bucket : Option String) (send : Except String Unit)
    (id : String) (nowMs : ℕ) : Except String String :=
  if jsTruthyStr bucket then
    match send with
    | .error _ => .error "Failed to upload audio to S3."
    | .ok _ => .ok (s3Url (bucket.getD "") (audioFileName id nowMs))
  else .error "Failed to upload audio to S3."

/-- Which of the two temporary files of `uploadVideoToS3` exist when the
function returns. -/
structure TmpState where
  inputExists : Bool
  outputExists : Bool
deriving DecidableEq

/-- `uploadVideoToS3` of utils.ts: download the rendered artifact to a
temporary input file, rewrite the metadata with ffmpeg into a temporary
output file, upload, then `unlinkSync` both files and return the URL.  The
catch block rethrows `"Failed to upload video to S3."` and performs no
cleanup, so the second component records which temporary files survive. -/
def uploadVideoToS3Run (bucket : Option String)
    (download : Except String Buffer)
    (ffmpegRewrite : Except String Unit)
    (send : Except String Unit)
    (id : String) (nowMs : ℕ) : Except String String × TmpState :=
  if jsTruthyStr bucket then
    match download with
    | .error _ => (.error "Failed to upload video to S3.", ⟨false, false⟩)
    | .ok _ =>
      match ffmpegRewrite with
      | .error _ => (.error "Failed to upload video to S3.", ⟨true, false⟩)
      | .ok _ =>
        match send with
        | .error _ => (.error "Failed to upload video to S3.", ⟨true, true⟩)
        | .ok _ => (.ok (s3Url (bucket.getD "") (videoFileName id nowMs)), ⟨false, false⟩)
  else (.error "Failed to upload video to S3.", ⟨false, false⟩)

/-- The `langMap` table of utils.ts: the fixed allow-list mapping twenty
language codes to the "best" speech model. -/
def langMap : List (String × String) :=
  [("en", "best"), ("en_au", "best"), ("en_uk", "best"), ("en_us", "best"),
   ("es", "best"), ("fr", "best"), ("de", "best"), ("it", "best"),
   ("pt", "best"), ("nl", "best"), ("hi", "best"), ("ja", "best"),
   ("zh", "best"), ("fi", "best"), ("ko", "best"), ("pl", "best"),
   ("ru", "best"), ("tr", "best"), ("uk", "best"), ("vi", "best")]

/-- `getLanguageValue` of utils.ts: `langMap[langCode] ?? "nano"` (an absent
runtime language code also falls through to "nano"). -/
def getLanguageValue (langCode : Option String) : String :=
  match langCode with
  | some c => (langMap.lookup c).getD "nano"
  | none => "nano"

/-- The request object `transcribeAudio` sends to AssemblyAI.  The
`language_detection: true` line of the source is commented out, so the field
is never set; the language code is always passed through as given. -/
structure TranscribeParams where
  audio_url : String
  language_code : Option String
  speech_model : String
  language_detection : Option Bool
deriving DecidableEq

/-- The transcription request built by `transcribeAudio` of utils.ts. -/
def mkTranscribeParams (audioUrl : String) (lang_code : Option String) : TranscribeParams :=
  { audio_url := audioUrl
    language_code := lang_code
    speech_model := getLanguageValue lang_code
    language_detection := none }

/-- `transcribeAudio` of utils.ts: submit the request, answer `none` when the
transcript has no word list, otherwise the word-level captions; the catch
rethrows `"Error Transcribing"`. -/
def transcribeAudioRun (audioUrl : String) (lang_code : Option String)
    (backend : TranscribeParams → Except String (Option (List CaptionType))) :
    Except String (Option (List CaptionType)) :=
  match backend (mkTranscribeParams audioUrl lang_code) with
  | .error _ => .error "Error Transcribing"
  | .ok words => .ok words

/-- The inbound webhook notification: `type`, `outputUrl` and the
`customData.video_id` correlation field. -/
structure WebhookPayload where
  type : Option String := none
  outputUrl : Option String := none
  video_id : Option String := none
deriving DecidableEq

/-- A body POSTed to the downstream OUTPUT_SERVER_URL: either a payload
(raw, or with `outputUrl` replaced), or the synthesized error object of the
webhook catch block. -/
inductive DownstreamMsg where
  | payloadMsg (p : WebhookPayload)
  | webhookErrorMsg (message : String)
deriving DecidableEq

/-- The `type` field of a downstream body; the synthesized catch-block body
carries `type: "error"`. -/
def DownstreamMsg.typeField : DownstreamMsg → Option String
  | .payloadMsg p => p.type
  | .webhookErrorMsg _ => some "error"

/-- Outcome of one POST /webhook call: the HTTP response when the handler
reached `res.status(...)` (`none` when an exception escaped the handler), and
the downstream POST attempts in order. -/
structure WebhookResult where
  response : Option (ℕ × String)
  sent : List DownstreamMsg
deriving DecidableEq

/-- The message of the synthesized error notification of the webhook catch
block. -/
def webhookCatchMessage : String := "Error processing webhook from backend server"

/-- The POST /webhook handler of index.ts.  `upload` is the
`uploadVideoToS3` oracle taking the video URL and the (defaulted) video id;
`notify` is the axios POST to the downstream server.  The catch block
forwards the synthesized error body and answers 200; a failure of that very
forward escapes the handler (no response). -/
def handleWebhook (payload : WebhookPayload)
    (upload : String → String → Except String String)
    (notify : DownstreamMsg → Except String Unit) : WebhookResult :=
  let catchPath (sentSoFar : List DownstreamMsg) : WebhookResult :=
    match notify (.webhookErrorMsg webhookCatchMessage) with
    | .ok _ => ⟨some (200, "Error processing webhook"),
                sentSoFar ++ [.webhookErrorMsg webhookCatchMessage]⟩
    | .error _ => ⟨none, sentSoFar ++ [.webhookErrorMsg webhookCatchMessage]⟩
  if payload.type = some "error" then
    match notify (.payloadMsg payload) with
    | .ok _ => ⟨some (200, "Error in video processing"), [.payloadMsg payload]⟩
    | .error _ => catchPath [.payloadMsg payload]
  else
    let videoUrl := payload.outputUrl.getD ""
    let videoId := jsOrStr payload.video_id "default_id"
    match upload videoUrl videoId with
    | .error _ => catchPath []
    | .ok finalUrl =>
      match notify (.payloadMsg { payload with outputUrl := some finalUrl }) with
      | .ok _ => ⟨some (200, "Video processed and forwarded"),
                  [.payloadMsg { payload with outputUrl := some finalUrl }]⟩
      | .error _ => catchPath [.payloadMsg { payload with outputUrl := some finalUrl }]

/-! Concrete fixtures used by witnesses and counterexamples. -/

/-- Collaborator oracles that all succeed, with deterministic results. -/
def okCollab : Collab where
  genAudio := fun _ => .ok [1]
  uploadToS3 := fun _ i => .ok ("https://bkt.s3.amazonaws.com/" ++ i ++ "_0.mp3")
  transcribeAudio := fun _ _ => .ok (some [⟨"Hi", 0, 1⟩])
  generateVideo := fun _ _ => true

/-- A request with all three required fields but an empty scene array. -/
def emptyClipsBody : PostRequestBody :=
  { id := some "v1", elevenlabs_voice_id := some "abc", clips := some [] }

/-- A request whose top-level `audio_text` is present but the empty string,
with one scene that carries narration text. -/
def emptyAudioTextBody : PostRequestBody :=
  { id := some "v1", elevenlabs_voice_id := some "abc", audio_text := some "",
    clips := some [{ media_url := "https://x/a.mp4", audio_text := some "Hi" }] }

/-- A valid whole-video-mode request with one scene that also carries
narration text. -/
def wholeVideoBody : PostRequestBody :=
  { id := some "v1", elevenlabs_voice_id := some "abc",
    audio_text := some "Full video narration",
    clips := some [{ media_url := "https://x/a.mp4", audio_text := some "Hi" }] }

/-- A per-scene-mode request whose scene explicitly sets both flags false. -/
def falseFlagsBody : PostRequestBody :=
  { id := some "v1", elevenlabs_voice_id := some "abc",
    clips := some [{ media_url := "https://x/a.mp4", audio_text := some "Hi",
                     tts_enabled := some false, random_sequence := some false }] }

/-- A per-scene-mode request with one narrated scene. -/
def narrationBody : PostRequestBody :=
  { id := some "v1", elevenlabs_voice_id := some "abc",
    clips := some [{ media_url := "https://x/a.mp4", audio_text := some "Hi" }] }

/-- A successful render notification, as delivered by the rendering backend. -/
def webhookFailPayload : WebhookPayload :=
  { outputUrl := some "https://r/out.mp4", video_id := some "v1" }

/-! Decimal-rendering round-trip: `Nat.repr` (the rendering of `Date.now()`
inside a template literal) is injective, so object keys built from distinct
timestamps are distinct. -/

/-- Numeric value of a decimal digit character. -/
def digitVal (c : Char) : ℕ := c.toNat - 48

/-- Evaluate a digit string left to right with accumulator `acc`. -/
def digitsVal : ℕ → List Char → ℕ
  | acc, [] => acc
  | acc, c :: cs => digitsVal (10 * acc + digitVal c) cs

theorem digitsVal_nil (acc : ℕ) : digitsVal acc [] = acc := rfl

theorem digitsVal_cons_step (acc : ℕ) (c : Char) (cs : List Char) :
    digitsVal acc (c :: cs) = digitsVal (10 * acc + digitVal c) cs := rfl

theorem digitsVal_acc (l : List Char) :
    ∀ acc, digitsVal acc l = acc * 10 ^ l.length + digitsVal 0 l := by
  induction l with
  | nil => intro acc; simp [digitsVal_nil]
  | cons c cs ih =>
    intro acc
    rw [digitsVal_cons_step, digitsVal_cons_step 0, ih (10 * acc + digitVal c),
      ih (10 * 0 + digitVal c), List.length_cons, pow_succ]
    ring

theorem digitVal_digitChar : ∀ m, m < 10 → digitVal (Nat.digitChar m) = m := by decide

theorem digitsVal_cons (c : Char) (l : List Char) :
    digitsVal 0 (c :: l) = digitVal c * 10 ^ l.length + digitsVal 0 l := by
  rw [digitsVal_cons_step, digitsVal_acc]
  ring_nf

theorem toDigitsCore_step (f n : ℕ) (l : List Char) :
    Nat.toDigitsCore 10 (f + 1) n l
      = if n / 10 = 0 then Nat.digitChar (n % 10) :: l
        else Nat.toDigitsCore 10 f (n / 10) (Nat.digitChar (n % 10) :: l) := rfl

theorem digitsVal_toDigitsCore (f : ℕ) :
    ∀ (n : ℕ) (l : List Char), n < f →
      digitsVal 0 (Nat.toDigitsCore 10 f n l) = n * 10 ^ l.length + digitsVal 0 l := by
  induction f with
  | zero => intro n l h; exact absurd h (Nat.not_lt_zero n)
  | succ f ih =>
    intro n l h
    have hmod10 : n % 10 < 10 := Nat.mod_lt n (by norm_num)
    rw [toDigitsCore_step]
    by_cases hdiv : n / 10 = 0
    · have hn : n < 10 := by omega
      rw [if_pos hdiv, digitsVal_cons, digitVal_digitChar _ hmod10, Nat.mod_eq_of_lt hn]
    · have hn0 : 0 < n := by omega
      have hlt : n / 10 < n := Nat.div_lt_self hn0 (by norm_num)
      have hf : n / 10 < f := by omega
      rw [if_neg hdiv, ih (n / 10) (Nat.digitChar (n % 10) :: l) hf,
        digitsVal_cons, digitVal_digitChar _ hmod10]
      have hdm : 10 * (n / 10) + n % 10 = n := Nat.div_add_mod n 10
      have key : n / 10 * 10 ^ (Nat.digitChar (n % 10) :: l).length
          + n % 10 * 10 ^ l.length = n * 10 ^ l.length := by
        conv_rhs => rw [← hdm]
        rw [List.length_cons, pow_succ]
        ring
      omega

theorem digitsVal_repr (n : ℕ) : digitsVal 0 (Nat.repr n).data = n := by
  have h : (Nat.repr n).data = Nat.toDigitsCore 10 (n + 1) n [] := rfl
  rw [h, digitsVal_toDigitsCore (n + 1) n [] (Nat.lt_succ_self n), digitsVal_nil]
  simp

theorem natRepr_data_inj {a b : ℕ} (h : (Nat.repr a).data = (Nat.repr b).data) : a = b := by
  have h2 := congrArg (digitsVal 0) h
  rwa [digitsVal_repr, digitsVal_repr] at h2

theorem string_data_append (a b : String) : (a ++ b).data = a.data ++ b.data := rfl

theorem audioFileName_inj (id : String) {t1 t2 : ℕ}
    (h : audioFileName id t1 = audioFileName id t2) : t1 = t2 := by
  have hd := congrArg String.data h
  simp only [audioFileName, string_data_append, List.append_assoc] at hd
  exact natRepr_data_inj
    (List.append_cancel_right (List.append_cancel_left (List.append_cancel_left hd)))

theorem videoFileName_inj (id : String) {t1 t2 : ℕ}
    (h : videoFileName id t1 = videoFileName id t2) : t1 = t2 := by
  have hd := congrArg String.data h
  simp only [videoFileName, string_data_append, List.append_assoc] at hd
  exact natRepr_data_inj
    (List.append_cancel_right (List.append_cancel_left (List.append_cancel_left hd)))

/-! Shared helper lemmas. -/

theorem jsOrBool_true (o : Option Bool) : jsOrBool o true = true := by
  cases o with
  | none => rfl
  | some b => cases b <;> rfl

theorem langMap_lookup_best (s v : String) (h : langMap.lookup s = some v) : v = "best" := by
  simp only [langMap, List.lookup] at h
  repeat' split at h
  all_goals simp_all

/-! Claim theorems. -/

/-- C1 (counterexample): a request with `id`, `clips`, and
`elevenlabs_voice_id` all present but an empty `clips` array is not answered
400 — an empty array is truthy in JavaScript, so validation passes, and the
handler goes on to dispatch a render job. -/
theorem generate_video_empty_clips_not_rejected :
    (handleGenerateVideo okCollab emptyClipsBody).status = 200
    ∧ (handleGenerateVideo okCollab emptyClipsBody).message = "Video Triggered Successfully"
    ∧ (handleGenerateVideo okCollab emptyClipsBody).calls = [CallEv.disp] :=
  ⟨rfl, rfl, rfl⟩

/-- C1 (amended): whenever `id`, `clips`, or `elevenlabs_voice_id` is
JavaScript-falsy (absent, or an empty string for the two string fields), the
handler answers 400 with "Missing required fields in request body." and makes
no collaborator call at all; an empty scene array is not rejected. -/
theorem generate_video_missing_fields_rejected (collab : Collab) (body : PostRequestBody)
    (h : missingRequired body = true) :
    handleGenerateVideo collab body
      = { status := 400, message := "Missing required fields in request body.",
          calls := [], dispatched := none } := by
  simp [handleGenerateVideo, h]

/-- Witness for C1: the all-absent request is rejected with 400 and an empty
call log. -/
theorem generate_video_missing_fields_rejected_witness :
    handleGenerateVideo okCollab {}
      = { status := 400, message := "Missing required fields in request body.",
          calls := [], dispatched := none } :=
  generate_video_missing_fields_rejected okCollab {} rfl

/-- C2 (counterexample): when silence detection fails, `trimSilence` does not
return the original bytes — it raises "Failed to trim silence.". -/
theorem trim_silence_detection_failure_raises :
    trimSilence [1, 2, 3] (.error "boom") (fun _ _ => .ok [9])
      = .error "Failed to trim silence."
    ∧ trimSilence [1, 2, 3] (.error "boom") (fun _ _ => .ok [9]) ≠ .ok [1, 2, 3] := by
  refine ⟨rfl, by simp [trimSilence]⟩

/-- C2 (amended): if silence detection or the ffmpeg re-encode fails,
`trimSilence` raises "Failed to trim silence." instead of returning the
input; the fallback to the original bytes lives in its caller
`generateAudio`, whose inner catch returns the untrimmed buffer, so the
failure never reaches generateAudio callers. -/
theorem trim_silence_failure_policy (buf : Buffer) (detectErr : String)
    (encode : ℚ → ℚ → Except String Buffer)
    (params : AudioParams) (openaiSpeech : Except String Buffer)
    (hlang : ¬ params.lang_code = some "he")
    (first : SilentPart) (rest : List SilentPart) (dur : ℚ) (encErr : String)
    (hrange : trimStartOf first < trimEndOf (rest.getLastD first) dur)
    (henc : encode (trimStartOf first)
        (trimEndOf (rest.getLastD first) dur - trimStartOf first) = .error encErr) :
    trimSilence buf (.error detectErr) encode = .error "Failed to trim silence."
    ∧ trimSilence buf (.ok (first :: rest, dur)) encode = .error "Failed to trim silence."
    ∧ generateAudio params openaiSpeech (.ok buf)
        (fun b => trimSilence b (.error detectErr) encode) = .ok buf := by
  refine ⟨rfl, ?_, ?_⟩
  · simp only [trimSilence]
    rw [if_neg (not_le.mpr hrange), henc]
  · simp [generateAudio, if_neg hlang, trimSilence]

/-- Witness for C2: concrete run where detection reports a leading-silence
interval, the re-encode fails, and the caller receives the original buffer. -/
theorem trim_silence_failure_policy_witness :
    trimSilence [1, 2] (.error "boom") (fun _ _ => .error "enc") = .error "Failed to trim silence."
    ∧ trimSilence [1, 2] (.ok ([⟨0, 1⟩], 2)) (fun _ _ => .error "enc")
        = .error "Failed to trim silence."
    ∧ generateAudio ⟨some "v", none, none, "Hi", none, none, none, none⟩
        (.error "openai down") (.ok [1, 2])
        (fun b => trimSilence b (.error "boom") (fun _ _ => .error "enc")) = .ok [1, 2] :=
  trim_silence_failure_policy [1, 2] "boom" (fun _ _ => .error "enc")
    ⟨some "v", none, none, "Hi", none, none, none, none⟩ (.error "openai down")
    (by decide) ⟨0, 1⟩ [] 2 "enc" (by norm_num [trimStartOf, trimEndOf]) rfl

/-- C3 (confirmed): the backend result of `generateAudio` is always passed
through the silence trimmer; a trim failure degrades to the untrimmed
buffer, and `generateAudio` raises "Failed to generate audio." exactly when
the selected TTS backend call itself fails. -/
theorem generate_audio_trim_policy (params : AudioParams)
    (openaiSpeech elevenConvert : Except String Buffer)
    (trim : Buffer → Except String Buffer) :
    (∀ buf, (if params.lang_code = some "he" then openaiSpeech else elevenConvert) = .ok buf →
      (∀ t, trim buf = .ok t → generateAudio params openaiSpeech elevenConvert trim = .ok t)
      ∧ (∀ msg, trim buf = .error msg →
          generateAudio params openaiSpeech elevenConvert trim = .ok buf))
    ∧ (∀ msg, (if params.lang_code = some "he" then openaiSpeech else elevenConvert)
          = .error msg →
        generateAudio params openaiSpeech elevenConvert trim
          = .error "Failed to generate audio.")
    ∧ (∀ msg, generateAudio params openaiSpeech elevenConvert trim = .error msg →
        ∃ e, (if params.lang_code = some "he" then openaiSpeech else elevenConvert)
          = .error e) := by
  refine ⟨?_, ?_, ?_⟩
  · intro buf hb
    exact ⟨fun t ht => by simp [generateAudio, hb, ht],
           fun msg ht => by simp [generateAudio, hb, ht]⟩
  · intro msg hb
    simp [generateAudio, hb]
  · intro msg hres
    cases hb : (if params.lang_code = some "he" then openaiSpeech else elevenConvert) with
    | error e => exact ⟨e, rfl⟩
    | ok buf =>
      exfalso
      cases ht : trim buf with
      | ok t => simp [generateAudio, hb, ht] at hres
      | error e2 => simp [generateAudio, hb, ht] at hres

/-- Witness for C3: with a healthy ElevenLabs backend and a broken trimmer,
`generateAudio` returns the untrimmed backend buffer. -/
theorem generate_audio_trim_policy_witness :
    generateAudio ⟨some "v", none, none, "Hi", none, none, none, none⟩
      (.error "openai down") (.ok [1, 2]) (fun _ => .error "trim broke") = .ok [1, 2] :=
  ((generate_audio_trim_policy ⟨some "v", none, none, "Hi", none, none, none, none⟩
      (.error "openai down") (.ok [1, 2]) (fun _ => .error "trim broke")).1
    [1, 2] rfl).2 "trim broke" rfl

/-- C4 (counterexample): a request whose top-level `audio_text` is present
but the empty string takes the per-scene branch — the scene carrying
narration text triggers per-scene synthesis, and the dispatched scene gets a
resolved audio URL instead of the null annotation. -/
theorem whole_video_empty_audio_text_per_scene :
    emptyAudioTextBody.audio_text.isSome = true
    ∧ (handleGenerateVideo okCollab emptyAudioTextBody).calls
        = [CallEv.synth "Hi", CallEv.upl "v1",
           CallEv.trans "https://bkt.s3.amazonaws.com/v1_0.mp3", CallEv.disp]
    ∧ ((handleGenerateVideo okCollab emptyAudioTextBody).dispatched.map
         (fun a => a.scenes.map OutScene.audio_url))
        = some [JsField.val "https://bkt.s3.amazonaws.com/v1_0.mp3"] :=
  ⟨rfl, rfl, rfl⟩

/-- C4 (amended): for a valid request whose top-level `audio_text` is present
and non-empty, synthesis, upload, and transcription each run exactly once for
the whole video — never per scene — and every scene of the dispatched
payload is annotated with a null `audio_url` and null `captions`. -/
theorem whole_video_mode_single_pipeline (collab : Collab) (body : PostRequestBody)
    (buf : Buffer) (url : String) (caps : Option (List CaptionType))
    (hval : missingRequired body = false)
    (htext : jsTruthyStr body.audio_text = true)
    (hgen : collab.genAudio (mkAudioParams body (body.audio_text.getD "")) = .ok buf)
    (hupl : collab.uploadToS3 buf (body.id.getD "") = .ok url)
    (htr : collab.transcribeAudio url body.lang_code = .ok caps) :
    (handleGenerateVideo collab body).calls
      = [.synth (body.audio_text.getD ""), .upl (body.id.getD ""), .trans url, .disp]
    ∧ (handleGenerateVideo collab body).dispatched
      = some ⟨{ body with audio_url := some url, captions := some (caps.getD []) },
              (body.clips.getD []).map wholeVideoScene⟩
    ∧ ∀ s ∈ ((handleGenerateVideo collab body).dispatched.map GenerateVideoArgs.scenes).getD [],
        s.audio_url = JsField.null ∧ s.captions = JsField.null := by
  have hmain : handleGenerateVideo collab body
      = finishDispatch collab
          ⟨{ body with audio_url := some url, captions := some (caps.getD []) },
           (body.clips.getD []).map wholeVideoScene⟩
          { body with audio_url := some url, captions := some (caps.getD []) }
          [.synth (body.audio_text.getD ""), .upl (body.id.getD ""), .trans url] := by
    simp [handleGenerateVideo, hval, htext, hgen, hupl, htr]
  by_cases hgv : collab.generateVideo
      ⟨{ body with audio_url := some url, captions := some (caps.getD []) },
       (body.clips.getD []).map wholeVideoScene⟩
      { body with audio_url := some url, captions := some (caps.getD []) }
  · rw [hmain]
    refine ⟨by simp [finishDispatch, hgv], by simp [finishDispatch, hgv], ?_⟩
    intro s hs
    simp [finishDispatch, hgv] at hs
    obtain ⟨c, _, rfl⟩ := hs
    exact ⟨rfl, rfl⟩
  · rw [hmain]
    refine ⟨by simp [finishDispatch, hgv], by simp [finishDispatch, hgv], ?_⟩
    intro s hs
    simp [finishDispatch, hgv] at hs
    obtain ⟨c, _, rfl⟩ := hs
    exact ⟨rfl, rfl⟩

/-- Witness for C4: concrete whole-video request with one scene that also
carries narration text — one synthesis, one upload, one transcription, one
dispatch, and the scene is annotated null/null. -/
theorem whole_video_mode_single_pipeline_witness :
    (handleGenerateVideo okCollab wholeVideoBody).calls
      = [.synth "Full video narration", .upl "v1",
         .trans "https://bkt.s3.amazonaws.com/v1_0.mp3", .disp]
    ∧ (handleGenerateVideo okCollab wholeVideoBody).dispatched
      = some ⟨{ wholeVideoBody with
                  audio_url := some "https://bkt.s3.amazonaws.com/v1_0.mp3",
                  captions := some [⟨"Hi", 0, 1⟩] },
              (wholeVideoBody.clips.getD []).map wholeVideoScene⟩
    ∧ ∀ s ∈ ((handleGenerateVideo okCollab wholeVideoBody).dispatched.map
          GenerateVideoArgs.scenes).getD [],
        s.audio_url = JsField.null ∧ s.captions = JsField.null :=
  whole_video_mode_single_pipeline okCollab wholeVideoBody [1]
    "https://bkt.s3.amazonaws.com/v1_0.mp3" (some [⟨"Hi", 0, 1⟩]) rfl rfl rfl rfl rfl

/-- C5 (counterexample): a scene that explicitly sets `tts_enabled: false`
and `random_sequence: false` is dispatched with both flags `true` — the
JavaScript `scene.tts_enabled || true` turns an explicit `false` into
`true`. -/
theorem scene_flags_false_not_retained :
    ((handleGenerateVideo okCollab falseFlagsBody).dispatched.map
       (fun a => a.scenes.map (fun s => (s.tts_enabled, s.random_sequence))))
      = some [(some true, some true)] :=
  rfl

/-- C5 (amended): in both merge branches the dispatched `tts_enabled` and
`random_sequence` are unconditionally `true` — `x || true` is `true` for
absent, `false`, and `true` alike — while a scene skipped by the per-scene
branch (no narration text) keeps its original flag values. -/
theorem scene_flags_forced_true (c : Clip) (url : String) (caps : Option (List CaptionType)) :
    (mergeScene c url caps).tts_enabled = some true
    ∧ (mergeScene c url caps).random_sequence = some true
    ∧ (wholeVideoScene c).tts_enabled = some true
    ∧ (wholeVideoScene c).random_sequence = some true
    ∧ (passthroughScene c).tts_enabled = c.tts_enabled
    ∧ (passthroughScene c).random_sequence = c.random_sequence := by
  refine ⟨?_, ?_, ?_, ?_, rfl, rfl⟩ <;>
    simp [mergeScene, wholeVideoScene, passthroughScene, jsOrBool_true]

/-- C6 (counterexample): the merged scene of the per-scene branch retains the
original `audio_text` (the object spread does not delete it), and
`media_type` is not left unchanged — it is defaulted from absent to
"video". -/
theorem merged_scene_retains_audio_text :
    ((handleGenerateVideo okCollab narrationBody).dispatched.map
       (fun a => a.scenes.map (fun s => (s.audio_text, s.media_type))))
      = some [(some "Hi", some "video")] :=
  rfl

/-- C6 (amended): the per-scene merge adds the resolved `audio_url` and
`captions` (null captions become the empty list) on top of the inbound
scene: `audio_text` is retained, `media_type` is defaulted to "video" when
unset, the two flags are forced `true` (see C5), and the remaining scene
fields are unchanged. -/
theorem merge_scene_field_map (c : Clip) (url : String) (caps : Option (List CaptionType)) :
    (mergeScene c url caps).audio_url = JsField.val url
    ∧ (mergeScene c url caps).captions = JsField.val (caps.getD [])
    ∧ (mergeScene c url caps).audio_text = c.audio_text
    ∧ (mergeScene c url caps).media_type = some (jsOrStr c.media_type "video")
    ∧ (mergeScene c url caps).media_url = c.media_url
    ∧ (mergeScene c url caps).duration = c.duration
    ∧ (mergeScene c url caps).video_volume = c.video_volume
    ∧ (mergeScene c url caps).sound_effect_url = c.sound_effect_url
    ∧ (mergeScene c url caps).sound_effect_volume = c.sound_effect_volume
    ∧ (mergeScene c url caps).subtitle_style = c.subtitle_style
    ∧ (mergeScene c url caps).title = c.title
    ∧ (mergeScene c url caps).emoji = c.emoji
    ∧ (mergeScene c url caps).seconds = c.seconds
    ∧ (mergeScene c url caps).zoom = c.zoom :=
  ⟨rfl, rfl, rfl, rfl, rfl, rfl, rfl, rfl, rfl, rfl, rfl, rfl, rfl, rfl⟩

/-- C7 (counterexample): when the re-publish step fails and the downstream
forward of the synthesized error notification also fails, the exception
escapes the webhook handler and no HTTP 200 is ever sent. -/
theorem webhook_double_failure_no_response :
    (handleWebhook webhookFailPayload (fun _ _ => .error "upload broke")
       (fun _ => .error "downstream down")).response = none :=
  rfl

/-- C7 (amended): on any exception during the success path (re-publish
failure, or failure of the forward of the rewritten notification) the
handler forwards the synthesized `type: "error"` notification downstream and
answers HTTP 200, provided that very forward succeeds; if it also throws,
the exception escapes the handler and no response is sent. -/
theorem webhook_catch_policy (p : WebhookPayload)
    (upload : String → String → Except String String)
    (notify : DownstreamMsg → Except String Unit)
    (hn : ¬ p.type = some "error")
    (hok : notify (.webhookErrorMsg webhookCatchMessage) = .ok ()) :
    (∀ e, upload (p.outputUrl.getD "") (jsOrStr p.video_id "default_id") = .error e →
      handleWebhook p upload notify
        = ⟨some (200, "Error processing webhook"), [.webhookErrorMsg webhookCatchMessage]⟩)
    ∧ (∀ u e2, upload (p.outputUrl.getD "") (jsOrStr p.video_id "default_id") = .ok u →
        notify (.payloadMsg { p with outputUrl := some u }) = .error e2 →
        handleWebhook p upload notify
          = ⟨some (200, "Error processing webhook"),
             [.payloadMsg { p with outputUrl := some u },
              .webhookErrorMsg webhookCatchMessage]⟩)
    ∧ DownstreamMsg.typeField (.webhookErrorMsg webhookCatchMessage) = some "error" := by
  refine ⟨?_, ?_, rfl⟩
  · intro e he
    simp [handleWebhook, hn, he, hok]
  · intro u e2 hu hne
    simp [handleWebhook, hn, hu, hne, hok]

/-- Witness for C7: concrete success notification whose re-publish fails
while the downstream accepts the synthesized error: the handler answers 200
and forwards exactly the synthesized error notification. -/
theorem webhook_catch_policy_witness :
    handleWebhook webhookFailPayload (fun _ _ => .error "upload broke")
        (fun m => if m = .webhookErrorMsg webhookCatchMessage then .ok () else .error "no")
      = ⟨some (200, "Error processing webhook"), [.webhookErrorMsg webhookCatchMessage]⟩ :=
  (webhook_catch_policy webhookFailPayload (fun _ _ => .error "upload broke")
      (fun m => if m = .webhookErrorMsg webhookCatchMessage then .ok () else .error "no")
      (by simp [webhookFailPayload]) (by simp)).1 "upload broke" rfl

/-- C8 (counterexample): when the ffmpeg metadata rewrite fails,
`uploadVideoToS3` raises and the temporary input file is left behind — the
catch path performs no cleanup. -/
theorem upload_video_tmp_leak_on_ffmpeg_failure :
    uploadVideoToS3Run (some "bkt") (.ok [1]) (.error "ffmpeg broke") (.ok ()) "v1" 5
      = (.error "Failed to upload video to S3.", ⟨true, false⟩)
    ∧ (uploadVideoToS3Run (some "bkt") (.ok [1]) (.error "ffmpeg broke")
        (.ok ()) "v1" 5).2.inputExists = true :=
  ⟨rfl, rfl⟩

/-- C8 (amended): `uploadVideoToS3` unlinks both temporary files on the
success path only; on a failure after a temporary file has been created
(ffmpeg rewrite or S3 send) the already-created files survive the error
exit. -/
theorem upload_video_tmp_cleanup_policy (bucket : String) (hb : ¬ bucket = "")
    (download : Except String Buffer) (buf : Buffer) (id : String) (nowMs : ℕ)
    (ffmpegRewrite send : Except String Unit) :
    (download = .ok buf → ffmpegRewrite = .ok () → send = .ok () →
      uploadVideoToS3Run (some bucket) download ffmpegRewrite send id nowMs
        = (.ok (s3Url bucket (videoFileName id nowMs)), ⟨false, false⟩))
    ∧ (∀ e, download = .ok buf → ffmpegRewrite = .error e →
      uploadVideoToS3Run (some bucket) download ffmpegRewrite send id nowMs
        = (.error "Failed to upload video to S3.", ⟨true, false⟩))
    ∧ (∀ e, download = .ok buf → ffmpegRewrite = .ok () → send = .error e →
      uploadVideoToS3Run (some bucket) download ffmpegRewrite send id nowMs
        = (.error "Failed to upload video to S3.", ⟨true, true⟩)) := by
  refine ⟨?_, ?_, ?_⟩
  · intro hd hf hs
    simp [uploadVideoToS3Run, jsTruthyStr, hb, hd, hf, hs]
  · intro e hd hf
    simp [uploadVideoToS3Run, jsTruthyStr, hb, hd, hf]
  · intro e hd hf hs
    simp [uploadVideoToS3Run, jsTruthyStr, hb, hd, hf, hs]

/-- Witness for C8: concrete successful run releases both temporary files
and returns the public URL of the video key. -/
theorem upload_video_tmp_cleanup_policy_witness :
    uploadVideoToS3Run (some "bkt") (.ok [1]) (.ok ()) (.ok ()) "v1" 5
      = (.ok (s3Url "bkt" (videoFileName "v1" 5)), ⟨false, false⟩) :=
  (upload_video_tmp_cleanup_policy "bkt" (by decide) (.ok [1]) [1] "v1" 5
      (.ok ()) (.ok ())).1 rfl rfl rfl

/-- C9 (counterexample): with no meaningful language code, the transcription
request still does not enable automatic language detection — the
`language_detection` field is never set (that line is commented out in the
source) and the speech model falls back to "nano". -/
theorem transcribe_no_language_detection :
    (mkTranscribeParams "https://a/b.mp3" none).language_detection = none
    ∧ (mkTranscribeParams "https://a/b.mp3" none).speech_model = "nano"
    ∧ (mkTranscribeParams "https://a/b.mp3" (some "he")).language_detection = none
    ∧ (mkTranscribeParams "https://a/b.mp3" (some "he")).language_code = some "he" :=
  ⟨rfl, rfl, rfl, rfl⟩

/-- C9 (amended): the speech-model tier is "best" exactly when the supplied
code is a key of the fixed twenty-entry `langMap` allow-list and "nano"
otherwise (also for an absent code); the language code is always passed
through unchanged and automatic language detection is never enabled. -/
theorem transcribe_params_policy (audioUrl : String) :
    (∀ lang, (mkTranscribeParams audioUrl lang).language_code = lang
      ∧ (mkTranscribeParams audioUrl lang).language_detection = none
      ∧ (mkTranscribeParams audioUrl lang).audio_url = audioUrl)
    ∧ (∀ s, (mkTranscribeParams audioUrl (some s)).speech_model = "best"
        ↔ (langMap.lookup s).isSome = true)
    ∧ (∀ s, (langMap.lookup s).isSome = false →
        (mkTranscribeParams audioUrl (some s)).speech_model = "nano")
    ∧ (mkTranscribeParams audioUrl none).speech_model = "nano"
    ∧ langMap.length = 20 := by
  refine ⟨fun lang => ⟨rfl, rfl, rfl⟩, ?_, ?_, rfl, rfl⟩
  · intro s
    constructor
    · intro hb
      cases hl : langMap.lookup s with
      | none => simp [mkTranscribeParams, getLanguageValue, hl] at hb
      | some v => simp
    · intro hs
      cases hl : langMap.lookup s with
      | none => simp [hl] at hs
      | some v =>
        have hv := langMap_lookup_best s v hl
        subst hv
        simp [mkTranscribeParams, getLanguageValue, hl]
  · intro s h
    cases hl : langMap.lookup s with
    | none => simp [mkTranscribeParams, getLanguageValue, hl]
    | some v => simp [hl] at h

/-- C10 (counterexample): two upload calls for the same correlation id that
observe the same epoch-millisecond produce the same object key — the claimed
unconditional pairwise distinctness of keys fails. -/
theorem upload_same_millis_key_collision :
    audioFileName "v1" 1700000000000 = audioFileName "v1" 1700000000000
    ∧ ¬ ([audioFileName "v1" 1700000000000,
          audioFileName "v1" 1700000000000].Pairwise (fun a b => a ≠ b)) := by
  refine ⟨rfl, fun h => ?_⟩
  exact (List.pairwise_cons.mp h).1 _ (List.mem_singleton.mpr rfl) rfl

/-- C10 (amended): object keys follow `id ++ "_" ++ epochMillis` with
extension ".mp3" for audio and ".mp4" for video, the returned URL is the
fully-qualified public URL of that key, and two calls produce distinct keys
exactly when they observe distinct epoch-millisecond timestamps (key
uniqueness rests entirely on the clock value differing between calls). -/
theorem upload_key_uniqueness (id bucket : String) (t1 t2 : ℕ)
    (hb : ¬ bucket = "") (ht : t1 ≠ t2) :
    audioFileName id t1 = id ++ "_" ++ Nat.repr t1 ++ ".mp3"
    ∧ videoFileName id t1 = id ++ "_" ++ Nat.repr t1 ++ ".mp4"
    ∧ audioFileName id t1 ≠ audioFileName id t2
    ∧ videoFileName id t1 ≠ videoFileName id t2
    ∧ uploadToS3Run (some bucket) (.ok ()) id t1
        = .ok (s3Url bucket (audioFileName id t1))
    ∧ s3Url bucket (audioFileName id t1)
        = "https://" ++ bucket ++ ".s3.amazonaws.com/" ++ audioFileName id t1 := by
  refine ⟨rfl, rfl, fun h => ht (audioFileName_inj id h),
    fun h => ht (videoFileName_inj id h), ?_, rfl⟩
  simp [uploadToS3Run, jsTruthyStr, hb]

/-- Witness for C10: distinct timestamps for the same id give distinct audio
and video keys, and the uploader returns the public URL of the key. -/
theorem upload_key_uniqueness_witness :
    audioFileName "v1" 1 = "v1" ++ "_" ++ Nat.repr 1 ++ ".mp3"
    ∧ videoFileName "v1" 1 = "v1" ++ "_" ++ Nat.repr 1 ++ ".mp4"
    ∧ audioFileName "v1" 1 ≠ audioFileName "v1" 2
    ∧ videoFileName "v1" 1 ≠ videoFileName "v1" 2
    ∧ uploadToS3Run (some "bkt") (.ok ()) "v1" 1
        = .ok (s3Url "bkt" (audioFileName "v1" 1))
    ∧ s3Url "bkt" (audioFileName "v1" 1)
        = "https://" ++ "bkt" ++ ".s3.amazonaws.com/" ++ audioFileName "v1" 1 :=
  upload_key_uniqueness "v1" "bkt" 1 2 (by decide) (by decide)

end RemotionBackend
